import Mathlib

/-!
Verification of the capability-bridge logic of the learn-fast-mcp repository.

The embedded code comes from:
  * `src/app/my_server_llm_client.py` / `src/app/learn_llm_client.py`:
    the bridge from an MCP tool catalog to Gemini function declarations,
    the branching on the Gemini response (selection invoker), and the
    dispatch of a chosen tool call back to the MCP server.
  * `src/app/my_server.py`: the `add` tool.
  * `src/app/learn_server.py`: the `_get_users_data` sample data, the
    `search_users` tool and the `user://{user_id}` resource handler
    `get_user_by_id`.
-/

namespace Bridge

/-- JSON-like values: the payloads carried by tool schemas and tool-call
arguments.  Python dicts are modelled as association lists. -/
inductive Value where
  | str (s : String)
  | int (n : Int)
  | bool (b : Bool)
  | list (xs : List Value)
  | dict (fields : List (String × Value))

/-- An MCP tool descriptor as returned by `mcp_client.list_tools()`:
`tool.name`, `tool.description` (optional in the SDK) and
`tool.inputSchema` (a JSON-Schema value, passed through opaquely). -/
structure McpTool where
  name : String
  description : Option String
  inputSchema : Value

/-- A Gemini function declaration, i.e. the dict
`{"name": ..., "description": ..., "parameters": ...}` built by the
clients (my_server_llm_client.py lines 58-62). -/
structure FunctionDeclaration where
  name : String
  description : String
  parameters : Value

/-- The translation loop of my_server_llm_client.py lines 55-63 (and the
identical loop in learn_llm_client.py lines 50-58): each MCP tool is
mapped to a function declaration with the same name, the description
defaulted to `""` when absent (`tool.description or ""`), and the input
schema passed through unchanged. -/
def translateTools (mcp_tools : List McpTool) : List FunctionDeclaration :=
  mcp_tools.map fun tool =>
    { name := tool.name
      description := tool.description.getD ""
      parameters := tool.inputSchema }

/-- `google.genai` function call payload: `function_call.name` and
`function_call.args` are both optional in the SDK. -/
structure FunctionCall where
  name : Option String
  args : Option (List (String × Value))

/-- One content part of a Gemini candidate; only its `function_call`
field is consulted by the clients. -/
structure ContentPart where
  function_call : Option FunctionCall

/-- Candidate content: `content.parts` may be `None` (modelled `none`) or
a list (an empty list is falsy in Python, matched separately). -/
structure Content where
  parts : Option (List ContentPart)

/-- One response candidate; `candidate.content` may be `None`. -/
structure Candidate where
  content : Option Content

/-- The Gemini `generate_content` response as consulted by the clients:
`response.candidates` (may be `None` or empty) and `response.text`
(may be `None`). -/
structure ServiceResponse where
  candidates : Option (List Candidate)
  text : Option String

/-- The outcome of the selection step: either the LLM proposed a tool
call (`part.function_call` present) or the client falls back to the
plain text of the response. -/
inductive SelectionOutcome where
  | callProposal (capabilityName : String) (arguments : List (String × Value))
  | textResponse (text : Option String)

/-- The guard `not candidates or not candidates[0].content or not
candidates[0].content.parts` of my_server_llm_client.py line 93
(Python truthiness: `None` and the empty list are both falsy). -/
def emptyResponse (r : ServiceResponse) : Bool :=
  match r.candidates with
  | none => true
  | some [] => true
  | some (c :: _) =>
    match c.content with
    | none => true
    | some ct =>
      match ct.parts with
      | none => true
      | some [] => true
      | some (_ :: _) => false

/-- The selection-invoker branching of my_server_llm_client.py lines
92-117 (and learn_llm_client.py lines 72-88): if the response is empty
the raw `response.text` is surfaced; otherwise the first part of the
first candidate is consulted: a present `function_call` yields a call
proposal with name `func_call.name or ""` and arguments
`dict(func_call.args.items()) if func_call.args else {}`; otherwise
the raw `response.text` is surfaced. -/
def selectOutcome (r : ServiceResponse) : SelectionOutcome :=
  match r.candidates with
  | none => SelectionOutcome.textResponse r.text
  | some [] => SelectionOutcome.textResponse r.text
  | some (c :: _) =>
    match c.content with
    | none => SelectionOutcome.textResponse r.text
    | some ct =>
      match ct.parts with
      | none => SelectionOutcome.textResponse r.text
      | some [] => SelectionOutcome.textResponse r.text
      | some (p :: _) =>
        match p.function_call with
        | some fc =>
            SelectionOutcome.callProposal (fc.name.getD "") (fc.args.getD [])
        | none => SelectionOutcome.textResponse r.text

/-- What the dispatch step produces: either the provider's result
(`mcp_client.call_tool(...)`, surfaced as-is) or the passed-through
response text.  `R` is the provider's opaque DispatchResult type. -/
inductive DispatchOutput (R : Type) where
  | dispatched (result : R)
  | passedThrough (text : Option String)

/-- The dispatch branch of my_server_llm_client.py lines 100-117: on a
call proposal the provider is invoked with exactly the proposed name and
arguments and its result surfaced unmodified; on a text outcome nothing
is invoked.  The second component records every provider invocation
made, so that "no network call" is provable as an empty log. -/
def dispatch {R : Type} (provider : String → List (String × Value) → R)
    (o : SelectionOutcome) :
    DispatchOutput R × List (String × List (String × Value)) :=
  match o with
  | SelectionOutcome.callProposal name args =>
      (DispatchOutput.dispatched (provider name args), [(name, args)])
  | SelectionOutcome.textResponse t =>
      (DispatchOutput.passedThrough t, [])

/-- One run of the full utterance → outcome pipeline of
my_server_llm_client.py `main` (lines 31-117): translate the catalog,
call the selection service, branch on the response.  The service is
indexed by a run number `i` so that a service whose answers could drift
between runs is expressible; the pipeline itself threads no state. -/
def runPipeline (service : Nat → String → List FunctionDeclaration → ServiceResponse)
    (i : Nat) (utterance : String) (catalog : List McpTool) : SelectionOutcome :=
  selectOutcome (service i utterance (translateTools catalog))

/-- A user record of the fixed sample data: `id`, `name`, `department`,
`skills` (learn_server.py lines 39-58). -/
structure User where
  id : String
  name : String
  department : String
  skills : List String
deriving DecidableEq

/-- `_get_users_data` of learn_server.py lines 32-58: the fixed
three-user sample set. -/
def _get_users_data : List User :=
  [ { id := "u001", name := "田中太郎", department := "開発"
      skills := ["Python", "MCP"] }
  , { id := "u002", name := "山田花子", department := "営業"
      skills := ["Excel", "交渉"] }
  , { id := "u003", name := "佐藤次郎", department := "開発"
      skills := ["JavaScript", "React"] } ]

/-- The `search_users` tool of learn_server.py lines 301-313:
`[u for u in all_users if u["department"] == department]`. -/
def search_users (department : String) : List User :=
  (_get_users_data).filter fun u => u.department == department

/-- The `add` tool of my_server.py lines 12-14.  Python integers are
arbitrary precision, so `Int` is the faithful carrier. -/
def add (a b : Int) : Int := a + b

/-- Result of the `user://{user_id}` resource: either a user record or
the error dict `{"error": f"User {user_id} not found"}`. -/
inductive ResourceResult where
  | user (u : User)
  | error (msg : String)
deriving DecidableEq

/-- `get_user_by_id` of learn_server.py lines 97-112: builds
`{u["id"]: u for u in _get_users_data()}` and looks `user_id` up with a
default error dict.  The ids of the sample data are distinct, so the
dict lookup coincides with a first-match search on the list. -/
def get_user_by_id (user_id : String) : ResourceResult :=
  match (_get_users_data).find? (fun u => u.id == user_id) with
  | some u => ResourceResult.user u
  | none => ResourceResult.error ("User " ++ user_id ++ " not found")

/-- C1: the schema translation is a pure, order-preserving, one-to-one
map: the translated list has the same length, and at every index the
declaration keeps the tool's name, passes `inputSchema` through
unchanged as `parameters`, and copies the description, defaulting to
`""` when it is absent. -/
theorem translate_spec (C : List McpTool) :
    (translateTools C).length = C.length ∧
    ∀ (i : Nat) (t : McpTool), C[i]? = some t →
      (translateTools C)[i]? =
        some ({ name := t.name
                description := t.description.getD ""
                parameters := t.inputSchema } : FunctionDeclaration) := by
  constructor
  · simp [translateTools]
  · intro i t h
    simp [translateTools, List.getElem?_map, h]

/-- Witness for C1 at a concrete one-tool catalog. -/
theorem translate_spec_witness :
    (translateTools
      [ { name := "add", description := some "2つの数値を足し算する"
          inputSchema := Value.dict [] } ])[0]? =
      some { name := "add", description := "2つの数値を足し算する"
             parameters := Value.dict [] } :=
  (translate_spec _).2 0 _ rfl

/-- C2: whenever the response has no candidates, or its first candidate
has no content or no parts, the outcome is a TextResponse carrying the
raw `response.text` (never a CallProposal), even when that text is empty
or missing. -/
theorem empty_response_is_text (r : ServiceResponse)
    (h : emptyResponse r = true) :
    selectOutcome r = SelectionOutcome.textResponse r.text ∧
    ∀ n a, selectOutcome r ≠ SelectionOutcome.callProposal n a := by
  obtain ⟨cands, t⟩ := r
  have he : selectOutcome ⟨cands, t⟩ = SelectionOutcome.textResponse t := by
    match cands with
    | none => rfl
    | some [] => rfl
    | some (c :: cs) =>
      obtain ⟨ct⟩ := c
      match ct with
      | none => rfl
      | some ⟨ps⟩ =>
        match ps with
        | none => rfl
        | some [] => rfl
        | some (p :: rest) =>
          simp [emptyResponse] at h
  refine ⟨he, ?_⟩
  intro n a hcontra
  rw [he] at hcontra
  exact SelectionOutcome.noConfusion hcontra

/-- Witness for C2: a response with no candidates and empty text. -/
theorem empty_response_is_text_witness :
    selectOutcome ⟨none, some ""⟩ = SelectionOutcome.textResponse (some "") :=
  (empty_response_is_text ⟨none, some ""⟩ rfl).1

/-- C3: when the first content part of the first candidate carries a
structured function call with declared name `n`, the outcome is a
CallProposal with name `n` and the proposal's argument mapping,
`fc.args.getD []` being that mapping when present and the empty mapping
when the proposal omits it. -/
theorem first_part_call_proposal (r : ServiceResponse) (c : Candidate)
    (cs : List Candidate) (ct : Content) (p : ContentPart)
    (ps : List ContentPart) (fc : FunctionCall) (n : String)
    (hc : r.candidates = some (c :: cs)) (hct : c.content = some ct)
    (hp : ct.parts = some (p :: ps)) (hfc : p.function_call = some fc)
    (hn : fc.name = some n) :
    selectOutcome r = SelectionOutcome.callProposal n (fc.args.getD []) := by
  obtain ⟨cands, t⟩ := r
  simp only at hc
  subst hc
  simp [selectOutcome, hct, hp, hfc, hn]

/-- Witness for C3 at a concrete response proposing `add` with one
argument. -/
theorem first_part_call_proposal_witness :
    selectOutcome
      ⟨some [⟨some ⟨some [⟨some ⟨some "add", some [("a", Value.int 5)]⟩⟩]⟩⟩],
       none⟩ =
      SelectionOutcome.callProposal "add" [("a", Value.int 5)] :=
  first_part_call_proposal _ _ [] _ _ [] ⟨some "add", some [("a", Value.int 5)]⟩
    "add" rfl rfl rfl rfl rfl

/-- C4: dispatching a CallProposal for capability `X` with argument
mapping `A` invokes the provider with exactly the pair `(X, A)` (the
invocation log is exactly `[(X, A)]`) and surfaces the provider's
DispatchResult unmodified. -/
theorem dispatch_call_proposal {R : Type}
    (provider : String → List (String × Value) → R)
    (X : String) (A : List (String × Value)) :
    dispatch provider (SelectionOutcome.callProposal X A) =
      (DispatchOutput.dispatched (provider X A), [(X, A)]) := rfl

/-- C5: whenever the selection outcome is a TextResponse, the dispatcher
invokes no capability at all (the invocation log is empty) and surfaces
the service's free text unchanged; this holds for every response whose
outcome carries no call proposal. -/
theorem text_response_no_dispatch {R : Type}
    (provider : String → List (String × Value) → R)
    (r : ServiceResponse) (t : Option String)
    (h : selectOutcome r = SelectionOutcome.textResponse t) :
    dispatch provider (selectOutcome r) =
      (DispatchOutput.passedThrough t, []) := by
  rw [h]; rfl

/-- Witness for C5: an open-ended response (no candidates, free text) is
passed through with no provider invocation. -/
theorem text_response_no_dispatch_witness :
    dispatch (fun _ _ => (0 : Nat)) (selectOutcome ⟨none, some "こんにちは"⟩) =
      (DispatchOutput.passedThrough (some "こんにちは"), []) :=
  text_response_no_dispatch (fun _ _ => (0 : Nat)) ⟨none, some "こんにちは"⟩
    (some "こんにちは") rfl

/-- C6: only the first candidate's first content part determines the
outcome: for a fixed first part `p` and fixed raw text `t`, any extra
parts (`ps1` vs `ps2`) and any extra candidates (`cs1` vs `cs2`),
whatever they contain, leave the outcome unchanged. -/
theorem only_first_part_consulted (p : ContentPart)
    (ps1 ps2 : List ContentPart) (cs1 cs2 : List Candidate)
    (t : Option String) :
    selectOutcome ⟨some (⟨some ⟨some (p :: ps1)⟩⟩ :: cs1), t⟩ =
      selectOutcome ⟨some (⟨some ⟨some (p :: ps2)⟩⟩ :: cs2), t⟩ := rfl

/-- C7: `search_users "開発"` returns exactly the users u001 (田中太郎)
and u003 (佐藤次郎), in catalog order, and for any department string the
result consists of exactly the members of the fixed sample whose
department equals that string. -/
theorem search_users_spec :
    search_users "開発" =
      [ { id := "u001", name := "田中太郎", department := "開発"
          skills := ["Python", "MCP"] }
      , { id := "u003", name := "佐藤次郎", department := "開発"
          skills := ["JavaScript", "React"] } ] ∧
    ∀ (d : String) (u : User),
      u ∈ search_users d ↔ u ∈ _get_users_data ∧ u.department = d := by
  constructor
  · rfl
  · intro d u
    simp [search_users, List.mem_filter]

/-- Witness for C7: 田中太郎 is in the 開発 search result. -/
theorem search_users_spec_witness :
    ({ id := "u001", name := "田中太郎", department := "開発"
       skills := ["Python", "MCP"] } : User) ∈ search_users "開発" :=
  (search_users_spec.2 "開発" _).mpr (by constructor <;> simp [_get_users_data])

/-- C8: `add 5 7 = 12`, and for all integers the `add` tool returns the
exact integer sum (Python integers do not overflow, so `Int` addition is
exact). -/
theorem add_spec : add 5 7 = 12 ∧ ∀ a b : Int, add a b = a + b :=
  ⟨rfl, fun _ _ => rfl⟩

/-- C9: the utterance → outcome pipeline is deterministic: two runs (run
numbers `i` and `j`) with the same utterance, the same catalog and a
deterministic selection service produce the same SelectionOutcome — the
pipeline threads no state between runs. -/
theorem pipeline_deterministic
    (service : Nat → String → List FunctionDeclaration → ServiceResponse)
    (hdet : ∀ i j u d, service i u d = service j u d)
    (u : String) (catalog : List McpTool) (i j : Nat) :
    runPipeline service i u catalog = runPipeline service j u catalog := by
  unfold runPipeline
  rw [hdet i j u (translateTools catalog)]

/-- Witness for C9: two consecutive runs with a constant service agree. -/
theorem pipeline_deterministic_witness :
    runPipeline (fun _ _ _ => ⟨none, some "相談に乗ります"⟩) 0
        "5と7を足してください" [] =
      runPipeline (fun _ _ _ => ⟨none, some "相談に乗ります"⟩) 1
        "5と7を足してください" [] :=
  pipeline_deterministic (fun _ _ _ => ⟨none, some "相談に乗ります"⟩)
    (fun _ _ _ _ => rfl) "5と7を足してください" [] 0 1

/-- C10: the `user://{user_id}` resource is total and never raises: each
of the three sample ids returns that user's record, and every other id
returns the error dict `{"error": "User <user_id> not found"}`. -/
theorem get_user_by_id_spec :
    get_user_by_id "u001" =
      ResourceResult.user
        { id := "u001", name := "田中太郎", department := "開発"
          skills := ["Python", "MCP"] } ∧
    get_user_by_id "u002" =
      ResourceResult.user
        { id := "u002", name := "山田花子", department := "営業"
          skills := ["Excel", "交渉"] } ∧
    get_user_by_id "u003" =
      ResourceResult.user
        { id := "u003", name := "佐藤次郎", department := "開発"
          skills := ["JavaScript", "React"] } ∧
    ∀ uid : String, uid ≠ "u001" → uid ≠ "u002" → uid ≠ "u003" →
      get_user_by_id uid =
        ResourceResult.error ("User " ++ uid ++ " not found") := by
  refine ⟨rfl, rfl, rfl, ?_⟩
  intro uid h1 h2 h3
  have e1 : (("u001" : String) == uid) = false :=
    beq_eq_false_iff_ne.mpr (Ne.symm h1)
  have e2 : (("u002" : String) == uid) = false :=
    beq_eq_false_iff_ne.mpr (Ne.symm h2)
  have e3 : (("u003" : String) == uid) = false :=
    beq_eq_false_iff_ne.mpr (Ne.symm h3)
  simp [get_user_by_id, _get_users_data, List.find?, e1, e2, e3]

/-- Witness for C10 at the absent id "u999". -/
theorem get_user_by_id_spec_witness :
    get_user_by_id "u999" =
      ResourceResult.error ("User " ++ "u999" ++ " not found") :=
  get_user_by_id_spec.2.2.2 "u999" (by decide) (by decide) (by decide)

end Bridge
